import Mathlib

/-!
Verification development for the linkwavez backend scoring core.

Shallow embedding of the repository's self-contained logic:
* mood detection and time-of-day preference (routes/feed.js),
* the content scoring function (routes/feed.js),
* reaction add/replace/remove and wisdom/aura score updates (routes/reactions.js),
* comment priority scoring and priority-sorted comment listings (routes/comments.js),
* the fan tier state machine (routes/fans.js).

Database reads are modelled as explicit inputs, database rows as structures,
JavaScript `x || d` defaulting (null/undefined/0 are falsy) as explicit
`Option`-based helpers, and the server clock as an explicit parameter.
JavaScript strings that are only compared for equality stay `String`;
strings that undergo `toLowerCase`/`includes` are modelled as `List Char`
so that the embedding stays kernel-computable.
-/

/-- JavaScript `x || d` for a nullable number: `null`/`undefined` and `0`
are falsy, so both fall back to the default. -/
def jsOrNat (x : Option Nat) (d : Nat) : Nat :=
  match x with
  | none => d
  | some v => if v = 0 then d else v

/-- JavaScript `x || d` for a nullable integer value. -/
def jsOrInt (x : Option Int) (d : Int) : Int :=
  match x with
  | none => d
  | some v => if v = 0 then d else v

/-- `String.prototype.toLowerCase` on the `List Char` model of a JS string. -/
def jsToLower (s : List Char) : List Char :=
  s.map Char.toLower

/-- `String.prototype.includes`: `hay.includes needle` is true when `needle`
occurs contiguously inside `hay` (case-sensitive, as in JavaScript). -/
def jsIncludes (hay needle : List Char) : Bool :=
  match hay with
  | [] => needle.isEmpty
  | _ :: t => needle.isPrefixOf hay || jsIncludes t needle

/-! ## Mood detection — `detectUserMood` in routes/feed.js

The route fetches the user's last 10 reactions (newest first) and classifies
them.  The embedding takes that fetched window as input. -/

/-- The per-type tallies built by `detectUserMood`'s `counts` object. -/
structure MoodCounts where
  laugh : Nat
  support : Nat
  care : Nat
  thinking : Nat
  applaud : Nat
  fire : Nat
deriving DecidableEq, Repr

/-- The zero-initialised `counts` object. -/
def MoodCounts.zero : MoodCounts :=
  ⟨0, 0, 0, 0, 0, 0⟩

/-- One iteration of the `forEach` tallying loop of `detectUserMood`:
unknown reaction types are skipped (`hasOwnProperty` guard). -/
def tallyStep (c : MoodCounts) (r : String) : MoodCounts :=
  if r = "laugh" then { c with laugh := c.laugh + 1 }
  else if r = "support" then { c with support := c.support + 1 }
  else if r = "care" then { c with care := c.care + 1 }
  else if r = "thinking" then { c with thinking := c.thinking + 1 }
  else if r = "applaud" then { c with applaud := c.applaud + 1 }
  else if r = "fire" then { c with fire := c.fire + 1 }
  else c

/-- The `forEach` tallying loop of `detectUserMood` over the whole window. -/
def tallyReactions (recentReactions : List String) : MoodCounts :=
  recentReactions.foldl tallyStep MoodCounts.zero

/-- `detectUserMood` from routes/feed.js, applied to the fetched window of
the user's most recent reactions (at most 10, newest first). -/
def detectUserMood (recentReactions : List String) : String :=
  if recentReactions.length = 0 then "neutral"
  else
    let counts := tallyReactions recentReactions
    if counts.laugh + counts.fire > 6 then "fun-seeking"
    else if counts.thinking > 5 then "learning"
    else if counts.care + counts.support > 5 then "supportive"
    else if counts.applaud + counts.fire > 5 then "energized"
    else "balanced"

/-! ## Time preference — `getTimeBasedPreference` in routes/feed.js

The source reads `new Date().getHours()`; the embedding takes the hour
(0–23) as an explicit argument. -/

/-- `getTimeBasedPreference` from routes/feed.js. -/
def getTimeBasedPreference (hour : Nat) : String :=
  if 6 ≤ hour ∧ hour < 12 then "morning"
  else if 12 ≤ hour ∧ hour < 17 then "afternoon"
  else if 17 ≤ hour ∧ hour < 22 then "evening"
  else "night"

/-- C5: an empty reaction window yields the `neutral` mood, bypassing every
count-based classification rule. -/
theorem detectUserMood_empty_neutral : detectUserMood [] = "neutral" := rfl

/-- Tallying never invents reactions: every tally is bounded by the window
length, so a positive `laugh + fire` tally forces a nonempty window. -/
theorem tallyStep_laugh_fire_le (c : MoodCounts) (r : String) :
    (tallyStep c r).laugh + (tallyStep c r).fire ≤ c.laugh + c.fire + 1 := by
  unfold tallyStep
  by_cases h1 : r = "laugh" <;> by_cases h2 : r = "support" <;>
    by_cases h3 : r = "care" <;> by_cases h4 : r = "thinking" <;>
    by_cases h5 : r = "applaud" <;> by_cases h6 : r = "fire" <;>
    simp [h1, h2, h3, h4, h5, h6] <;> omega

theorem tallyReactions_laugh_fire_le (rs : List String) :
    (tallyReactions rs).laugh + (tallyReactions rs).fire ≤ rs.length := by
  suffices h : ∀ (c : MoodCounts),
      (rs.foldl tallyStep c).laugh + (rs.foldl tallyStep c).fire
        ≤ c.laugh + c.fire + rs.length by
    simpa [tallyReactions, MoodCounts.zero] using h MoodCounts.zero
  induction rs with
  | nil => intro c; simp
  | cons r rs ih =>
    intro c
    simp only [List.foldl_cons, List.length_cons]
    have hs := tallyStep_laugh_fire_le c r
    have ht := ih (tallyStep c r)
    omega

/-- C4: on any reaction window of the last-10 lookback, whenever the laugh
tally plus the fire tally exceeds 6, `detectUserMood` returns `fun-seeking`,
overriding the learning / supportive / energized rules and the balanced
default (and the window is necessarily nonempty, so the neutral shortcut
cannot fire either). -/
theorem detectUserMood_fun_seeking (rs : List String)
    (hwin : rs.length ≤ 10)
    (hcnt : (tallyReactions rs).laugh + (tallyReactions rs).fire > 6) :
    detectUserMood rs = "fun-seeking" := by
  have hne : rs.length ≠ 0 := by
    intro h0
    have hb := tallyReactions_laugh_fire_le rs
    omega
  unfold detectUserMood
  simp [hne, hcnt]

/-- Concrete instance of `detectUserMood_fun_seeking`: seven laughs (a
window of length 7 ≤ 10) give `laugh + fire = 7 > 6` and mood
`fun-seeking`. -/
theorem detectUserMood_fun_seeking_witness :
    detectUserMood
      ["laugh", "laugh", "laugh", "laugh", "laugh", "laugh", "laugh"]
      = "fun-seeking" :=
  detectUserMood_fun_seeking
    ["laugh", "laugh", "laugh", "laugh", "laugh", "laugh", "laugh"]
    (by decide) (by decide)

/-- C8: `getTimeBasedPreference` is total on hours 0–23 and partitions them
with no gaps or overlaps: a result is `morning` exactly on [6,12),
`afternoon` exactly on [12,17), `evening` exactly on [17,22), `night`
exactly on [22,24) ∪ [0,6); in particular hour 6 is morning, 12 is
afternoon, 17 is evening, 22 is night, and 0 is night. -/
theorem getTimeBasedPreference_partition (h : Nat) (hh : h < 24) :
    (getTimeBasedPreference h = "morning" ↔ 6 ≤ h ∧ h < 12) ∧
    (getTimeBasedPreference h = "afternoon" ↔ 12 ≤ h ∧ h < 17) ∧
    (getTimeBasedPreference h = "evening" ↔ 17 ≤ h ∧ h < 22) ∧
    (getTimeBasedPreference h = "night" ↔ (22 ≤ h ∨ h < 6)) ∧
    getTimeBasedPreference 6 = "morning" ∧
    getTimeBasedPreference 12 = "afternoon" ∧
    getTimeBasedPreference 17 = "evening" ∧
    getTimeBasedPreference 22 = "night" ∧
    getTimeBasedPreference 0 = "night" := by
  interval_cases h <;> exact ⟨by decide, by decide, by decide, by decide,
    rfl, rfl, rfl, rfl, rfl⟩

/-- Concrete instance of `getTimeBasedPreference_partition` at hour 6: the
morning bucket starts exactly there. -/
theorem getTimeBasedPreference_partition_witness :
    getTimeBasedPreference 6 = "morning" :=
  (getTimeBasedPreference_partition 6 (by decide)).2.2.2.2.1

/-! ## Content scoring — `calculateContentScore` in routes/feed.js

The post record carries the engagement annotations the feed route attaches
before scoring (`reactions` tally, `comment_count`).  `created_at` together
with `Date.now()` only ever enters the function through
`hoursAgo = (Date.now() - created_at) / 3600000`, so the embedding carries
that elapsed-hours quantity directly.  JS numbers are modelled as `ℚ`. -/

/-- The per-post reaction tally attached by the feed route (step 8). -/
structure ReactionCounts where
  laugh : Nat
  support : Nat
  care : Nat
  thinking : Nat
  applaud : Nat
  fire : Nat
  total : Nat
deriving DecidableEq, Repr

/-- The author fields joined onto a post (`users:user_id (...)`). -/
structure PostAuthor where
  aura_score : Nat
  wisdom_score : Nat
deriving DecidableEq, Repr

/-- A candidate post as seen by `calculateContentScore`.  Optional fields
model JS `undefined`/`null` reached through `?.` and `|| 0`. -/
structure Post where
  reactions : Option ReactionCounts
  comment_count : Option Nat
  hoursAgo : ℚ
  content_type : String
  hashtags : Option (List (List Char))
  users : Option PostAuthor
  is_crisis : Bool
  needs_fact_check : Bool

/-- The passion-match test in `calculateContentScore`:
`postHashtags.some(tag => tag.includes(passion.toLowerCase()))`.
Only the passion is lowercased; the hashtag is used verbatim. -/
def passionMatches (postHashtags : List (List Char)) (passion : List Char) : Bool :=
  postHashtags.any (fun tag => jsIncludes tag (jsToLower passion))

/-- Claim-side matcher, written from the spec's words for comparison: some
hashtag on the post contains the passion case-insensitively (both sides
lowercased before the containment test). -/
def passionMatchesSpec (postHashtags : List (List Char)) (passion : List Char) : Bool :=
  postHashtags.any (fun tag => jsIncludes (jsToLower tag) (jsToLower passion))

/-- The additive score accumulated by `calculateContentScore` before the
final `Math.max(0, score)` clamp, block by block in source order. -/
def rawContentScore (post : Post) (userMood : String) (timePreference : String)
    (userPassions : List (List Char)) : ℚ :=
  let totalEngagement : Nat :=
    jsOrNat (post.reactions.map ReactionCounts.total) 0 + jsOrNat post.comment_count 0
  let score : ℚ := min ((totalEngagement : ℚ) / 10) 50
  let score := score +
    (if post.hoursAgo < 1 then 30
     else if post.hoursAgo < 6 then 20
     else if post.hoursAgo < 24 then 10
     else 0)
  let score := score +
    (if userMood = "fun-seeking" then
      (if post.content_type = "entertainment" then 40 else 0) +
      (if 10 < (post.reactions.map ReactionCounts.laugh).getD 0 then 30 else 0)
    else if userMood = "learning" then
      (if post.content_type = "educational" then 40 else 0) +
      (if 5 < (post.reactions.map ReactionCounts.thinking).getD 0 then 30 else 0)
    else if userMood = "supportive" then
      (if post.content_type = "inspirational" then 40 else 0) +
      (if 5 < (post.reactions.map ReactionCounts.care).getD 0 then 30 else 0)
    else 0)
  let score := score +
    (if timePreference = "morning" then
      (if post.content_type = "motivational" ∨ post.content_type = "news" then 25 else 0)
    else if timePreference = "afternoon" then
      (if post.content_type = "educational" then 25 else 0)
    else if timePreference = "evening" then
      (if post.content_type = "entertainment" ∨ post.content_type = "social" then 25 else 0)
    else 0)
  let postHashtags := post.hashtags.getD []
  let score := userPassions.foldl
    (fun s passion => if passionMatches postHashtags passion then s + 35 else s) score
  let score := score + (if 800 < (post.users.map PostAuthor.aura_score).getD 0 then 15 else 0)
  let score := score + (if 800 < (post.users.map PostAuthor.wisdom_score).getD 0 then 15 else 0)
  let score := score - (if post.is_crisis then 20 else 0)
  let score := score - (if post.needs_fact_check then 15 else 0)
  score

/-- `calculateContentScore` from routes/feed.js: the accumulated sum,
clamped at zero on return. -/
def calculateContentScore (post : Post) (userMood : String) (timePreference : String)
    (userPassions : List (List Char)) : ℚ :=
  max 0 (rawContentScore post userMood timePreference userPassions)

/-- A bare post with no engagement, no author join, aged out of every
recency bracket — used to exercise single scoring terms in isolation. -/
def barePost : Post :=
  { reactions := none
    comment_count := none
    hoursAgo := 48
    content_type := "other"
    hashtags := none
    users := none
    is_crisis := false
    needs_fact_check := false }

/-- The passion `forEach` loop adds exactly 35 per passion satisfying the
match predicate, whatever the running score was. -/
theorem foldl_passion_add (hts : List (List Char)) (l : List (List Char)) (a : ℚ) :
    l.foldl (fun s passion => if passionMatches hts passion then s + 35 else s) a
      = a + 35 * (l.countP (fun passion => passionMatches hts passion) : ℚ) := by
  induction l generalizing a with
  | nil => simp
  | cons x xs ih =>
    simp only [List.foldl_cons, List.countP_cons, ih]
    by_cases hx : passionMatches hts x = true
    · simp [hx]; ring
    · simp [hx]

/-- C3 counterexample: the hashtag `Cooking` contains the passion `Cooking`
case-insensitively (claim-side matcher is true), yet the code lowercases
only the passion and tests case-sensitive containment, so the passion
contributes nothing: the score with the passion equals the score without
it (both 0 on an otherwise bare post), not +35. -/
theorem passion_case_sensitivity_counterexample :
    passionMatchesSpec [['C','o','o','k','i','n','g']] ['C','o','o','k','i','n','g'] = true
    ∧ passionMatches [['C','o','o','k','i','n','g']] ['C','o','o','k','i','n','g'] = false
    ∧ calculateContentScore
        { barePost with hashtags := some [['C','o','o','k','i','n','g']] }
        "balanced" "night" [['C','o','o','k','i','n','g']] = 0
    ∧ calculateContentScore
        { barePost with hashtags := some [['C','o','o','k','i','n','g']] }
        "balanced" "night" [] = 0 := by
  have hpm : passionMatches [['C','o','o','k','i','n','g']] ['C','o','o','k','i','n','g']
      = false := by decide
  refine ⟨by decide, by decide, ?_, ?_⟩ <;>
    simp +decide [calculateContentScore, rawContentScore, barePost, jsOrNat, hpm]

/-- C3 amended: the passion-match contribution to the (pre-clamp) content
score is +35 for each active passion whose lowercased form is contained,
case-sensitively, in some raw hashtag of the post; contributions accumulate
with no cap.  (The spec's `case-insensitive` reading fails because the
hashtag side is never lowercased.) -/
theorem passion_bonus_amended (post : Post) (userMood timePreference : String)
    (userPassions : List (List Char)) :
    rawContentScore post userMood timePreference userPassions
      = rawContentScore post userMood timePreference []
        + 35 * (userPassions.countP
            (fun passion => passionMatches (post.hashtags.getD []) passion) : ℚ) := by
  simp only [rawContentScore, foldl_passion_add, List.foldl_nil]
  ring

/-- A post flagged both `is_crisis` and `needs_fact_check`, with no other
contributions: its raw sum is −35. -/
def crisisPost : Post :=
  { barePost with is_crisis := true, needs_fact_check := true }

/-- C9: the returned content score is clamped at zero — it is nonnegative
for every post, mood, time preference and passion set — while the raw
additive sum really can go negative (the doubly-flagged `crisisPost` sums
to −35 yet scores 0). -/
theorem calculateContentScore_nonneg :
    (∀ (post : Post) (userMood timePreference : String)
        (userPassions : List (List Char)),
      0 ≤ calculateContentScore post userMood timePreference userPassions)
    ∧ rawContentScore crisisPost "balanced" "night" [] < 0
    ∧ calculateContentScore crisisPost "balanced" "night" [] = 0 := by
  refine ⟨fun post userMood timePreference userPassions => le_max_left _ _, ?_, ?_⟩ <;>
    · simp [calculateContentScore, rawContentScore, crisisPost, barePost, jsOrNat]
      norm_num

/-! ## Reactions — routes/reactions.js

The `/add` route enforces one active reaction per (user, post) pair through
the single-row `reactions` lookup, so the pair's state is an
`Option String`: the currently active reaction type, if any.  The route's
validation (`validReactions`), the per-post blocked-reaction rules, and the
wisdom/aura score update are modelled alongside. -/

/-- The `validReactions` array of the `/add` route. -/
def validReactions : List String :=
  ["laugh", "support", "care", "thinking", "applaud", "fire"]

/-- `REACTION_POINTS[reactionType] || { wisdom: 0, aura: 0 }`:
the (wisdom, aura) award for a reaction type. -/
def REACTION_POINTS (reactionType : String) : Nat × Nat :=
  if reactionType = "thinking" then (25, 5)
  else if reactionType = "support" then (5, 20)
  else if reactionType = "care" then (5, 30)
  else if reactionType = "applaud" then (5, 15)
  else if reactionType = "laugh" then (0, 10)
  else if reactionType = "fire" then (0, 10)
  else (0, 0)

/-- A row of `post_reaction_rules` as read by the `/add` route. -/
structure ReactionRules where
  allowed_reactions : List String
  blocked_reactions : Option (List String)
deriving DecidableEq, Repr

/-- The blocked-reaction guard of the `/add` route:
`reactionRules.blocked_reactions && blocked_reactions.includes(reaction_type)`. -/
def isBlockedReaction (rules : Option ReactionRules) (ty : String) : Bool :=
  match rules with
  | none => false
  | some r =>
    match r.blocked_reactions with
    | none => false
    | some bl => bl.contains ty

/-- The two reputation counters of a `users` row. -/
structure UserScores where
  wisdom_score : Nat
  aura_score : Nat
deriving DecidableEq, Repr

/-- `updateUserScores` from routes/reactions.js: adds the reaction type's
fixed award onto the reacting user's current scores. -/
def updateUserScores (u : UserScores) (reactionType : String) : UserScores :=
  { wisdom_score := u.wisdom_score + (REACTION_POINTS reactionType).1
    aura_score := u.aura_score + (REACTION_POINTS reactionType).2 }

/-- The state the `/add` route reads and writes for one (user, post) pair:
the pair's active reaction (single `reactions` row, if any) and the
reacting user's scores. -/
structure ReactionState where
  active : Option String
  scores : UserScores
deriving DecidableEq, Repr

/-- The `/add` route of routes/reactions.js for one (user, post) pair:
invalid types and blocked reactions are rejected without touching state;
re-applying the active type deletes the row (no score change); a different
type overwrites the row and awards the new type's points; with no active
row a new one is inserted and the points awarded.  Returns the new state
and the route's `action` string. -/
def addReaction (rules : Option ReactionRules) (ty : String) (s : ReactionState) :
    ReactionState × String :=
  if (validReactions.contains ty) = false then (s, "invalid")
  else if isBlockedReaction rules ty then (s, "blocked")
  else
    match s.active with
    | some existing =>
      if existing = ty then ({ s with active := none }, "removed")
      else ({ active := some ty, scores := updateUserScores s.scores ty }, "updated")
    | none => ({ active := some ty, scores := updateUserScores s.scores ty }, "added")

/-- A sequence of `/add` calls for the same (user, post) pair, each with its
own `post_reaction_rules` read. -/
def runReactions (ops : List (Option ReactionRules × String)) (s : ReactionState) :
    ReactionState :=
  ops.foldl (fun st op => (addReaction op.1 op.2 st).1) s

/-- C6: `addReaction` keeps at most one active reaction per (user, post)
pair: for an accepted (valid, unblocked) type, re-applying the active type
removes it (action `removed`, nothing left active), a different type
replaces it (action `updated`, exactly the second type active), and with
nothing active it is added (action `added`). -/
theorem addReaction_toggle (rules : Option ReactionRules) (ty : String)
    (s : ReactionState)
    (hvalid : validReactions.contains ty = true)
    (hblocked : isBlockedReaction rules ty = false) :
    (s.active = some ty →
      (addReaction rules ty s).1.active = none ∧ (addReaction rules ty s).2 = "removed")
    ∧ (∀ t, s.active = some t → t ≠ ty →
      (addReaction rules ty s).1.active = some ty ∧ (addReaction rules ty s).2 = "updated")
    ∧ (s.active = none →
      (addReaction rules ty s).1.active = some ty ∧ (addReaction rules ty s).2 = "added") := by
  unfold addReaction
  simp only [hvalid, hblocked]
  refine ⟨?_, ?_, ?_⟩
  · intro hact; simp [hact]
  · intro t hact hne; simp [hact, hne]
  · intro hact; simp [hact]

/-- Concrete instance of `addReaction_toggle`: re-applying `laugh` on a pair
whose active reaction is `laugh` removes it. -/
theorem addReaction_toggle_witness :
    (addReaction none "laugh" ⟨some "laugh", ⟨0, 0⟩⟩).1.active = none
    ∧ (addReaction none "laugh" ⟨some "laugh", ⟨0, 0⟩⟩).2 = "removed" :=
  (addReaction_toggle none "laugh" ⟨some "laugh", ⟨0, 0⟩⟩ (by decide) (by decide)).1 rfl

/-- Exhaustive case analysis of one `/add` call: rejection (invalid or
blocked) leaves the state alone; otherwise the call removes, updates or
adds, exactly as the route's branches do. -/
theorem addReaction_cases (rules : Option ReactionRules) (ty : String)
    (s : ReactionState) :
    addReaction rules ty s = (s, "invalid")
    ∨ addReaction rules ty s = (s, "blocked")
    ∨ (∃ t, s.active = some t ∧ t = ty
        ∧ addReaction rules ty s = ({ s with active := none }, "removed"))
    ∨ (∃ t, s.active = some t ∧ t ≠ ty
        ∧ addReaction rules ty s
          = ({ active := some ty, scores := updateUserScores s.scores ty }, "updated"))
    ∨ (s.active = none
        ∧ addReaction rules ty s
          = ({ active := some ty, scores := updateUserScores s.scores ty }, "added")) := by
  unfold addReaction
  by_cases hv : (validReactions.contains ty) = false
  · rw [if_pos hv]; exact Or.inl rfl
  · rw [if_neg hv]
    by_cases hb : isBlockedReaction rules ty = true
    · rw [if_pos hb]; exact Or.inr (Or.inl rfl)
    · rw [if_neg hb]
      cases hact : s.active with
      | none =>
        dsimp only
        exact Or.inr (Or.inr (Or.inr (Or.inr ⟨rfl, rfl⟩)))
      | some t =>
        dsimp only
        by_cases ht : t = ty
        · rw [if_pos ht]
          exact Or.inr (Or.inr (Or.inl ⟨t, rfl, ht, rfl⟩))
        · rw [if_neg ht]
          exact Or.inr (Or.inr (Or.inr (Or.inl ⟨t, rfl, ht, rfl⟩)))

/-- One `/add` call never lowers either score. -/
theorem addReaction_scores_step (rules : Option ReactionRules) (ty : String)
    (s : ReactionState) :
    s.scores.wisdom_score ≤ (addReaction rules ty s).1.scores.wisdom_score
    ∧ s.scores.aura_score ≤ (addReaction rules ty s).1.scores.aura_score := by
  rcases addReaction_cases rules ty s with hE | hE | ⟨t, hact, ht, hE⟩ |
      ⟨t, hact, ht, hE⟩ | ⟨hact, hE⟩ <;>
    simp [hE, updateUserScores]

/-- C7: across any sequence of `/add` operations on a (user, post) pair the
reacting user's `wisdom_score` and `aura_score` never decrease; moreover a
call whose action is `removed` leaves both scores exactly unchanged, and
every `added`/`updated` call awards exactly the new type's fixed
`REACTION_POINTS` deltas. -/
theorem reaction_scores_monotone (ops : List (Option ReactionRules × String))
    (s : ReactionState) :
    s.scores.wisdom_score ≤ (runReactions ops s).scores.wisdom_score
    ∧ s.scores.aura_score ≤ (runReactions ops s).scores.aura_score
    ∧ (∀ (rules : Option ReactionRules) (ty : String),
        (addReaction rules ty s).2 = "removed" → (addReaction rules ty s).1.scores = s.scores)
    ∧ (∀ (rules : Option ReactionRules) (ty : String),
        (addReaction rules ty s).2 = "added" ∨ (addReaction rules ty s).2 = "updated" →
        (addReaction rules ty s).1.scores = updateUserScores s.scores ty) := by
  refine ⟨?_, ?_, ?_, ?_⟩
  · induction ops generalizing s with
    | nil => simp [runReactions]
    | cons op rest ih =>
      have h1 := (addReaction_scores_step op.1 op.2 s).1
      have h2 := ih (addReaction op.1 op.2 s).1
      simpa [runReactions] using Nat.le_trans h1 (by simpa [runReactions] using h2)
  · induction ops generalizing s with
    | nil => simp [runReactions]
    | cons op rest ih =>
      have h1 := (addReaction_scores_step op.1 op.2 s).2
      have h2 := ih (addReaction op.1 op.2 s).1
      simpa [runReactions] using Nat.le_trans h1 (by simpa [runReactions] using h2)
  · intro rules ty hrem
    rcases addReaction_cases rules ty s with hE | hE | ⟨t, hact, ht, hE⟩ |
        ⟨t, hact, ht, hE⟩ | ⟨hact, hE⟩ <;>
      simp [hE] at hrem ⊢
  · intro rules ty hadd
    rcases addReaction_cases rules ty s with hE | hE | ⟨t, hact, ht, hE⟩ |
        ⟨t, hact, ht, hE⟩ | ⟨hact, hE⟩ <;>
      simp [hE] at hadd ⊢

/-- Concrete instance of `reaction_scores_monotone`: a care reaction then a
toggle-off never lowers the scores, and a removal leaves scores exactly as
they were. -/
theorem reaction_scores_monotone_witness :
    (⟨none, ⟨0, 0⟩⟩ : ReactionState).scores.wisdom_score
      ≤ (runReactions [(none, "care"), (none, "care")] ⟨none, ⟨0, 0⟩⟩).scores.wisdom_score
    ∧ (addReaction none "care" ⟨some "care", ⟨5, 30⟩⟩).1.scores
      = (⟨some "care", ⟨5, 30⟩⟩ : ReactionState).scores :=
  ⟨(reaction_scores_monotone [(none, "care"), (none, "care")] ⟨none, ⟨0, 0⟩⟩).1,
   (reaction_scores_monotone [] ⟨some "care", ⟨5, 30⟩⟩).2.2.1 none "care" (by decide)⟩

/-! ## Comment priority scoring — `calculatePriorityScore` in routes/comments.js

The function makes two reads: the commenter's fan status joined with its
`fan_badges` row for this content owner, and the commenter's active
subscription joined with its plan.  Each is modelled as the joined record
the code actually touches (`none` when the row is missing or the join is
null). -/

/-- The `fan_badges` join row reached via `fanStatus?.fan_badges`
(`priority_multiplier` may be null). -/
structure FanBadgeJoin where
  priority_multiplier : Option Nat
deriving DecidableEq, Repr

/-- The `subscription_plans` join row reached via
`subscription?.subscription_plans` (`priority_boost` may be null). -/
structure SubPlanJoin where
  priority_boost : Option Nat
deriving DecidableEq, Repr

/-- The object returned by `calculatePriorityScore`. -/
structure PriorityScore where
  base_score : Nat
  fan_tier_bonus : Nat
  premium_bonus : Nat
  final_score : Nat
deriving DecidableEq, Repr

/-- `calculatePriorityScore` from routes/comments.js: `fanTierBonus` starts
at 0 and is set to `(priority_multiplier || 1) * 20` only when a
`fan_badges` join row exists; `premiumBonus` is `priority_boost || 0` of
the active plan, if any. -/
def calculatePriorityScore (fanBadges : Option FanBadgeJoin)
    (subPlan : Option SubPlanJoin) : PriorityScore :=
  let baseScore := 10
  let fanTierBonus :=
    match fanBadges with
    | some fb => (jsOrNat fb.priority_multiplier 1) * 20
    | none => 0
  let premiumBonus :=
    match subPlan with
    | some sp => jsOrNat sp.priority_boost 0
    | none => 0
  { base_score := baseScore
    fan_tier_bonus := fanTierBonus
    premium_bonus := premiumBonus
    final_score := baseScore + fanTierBonus + premiumBonus }

/-- Claim-side score, following the claim's words verbatim: the fan's tier
priority multiplier *defaults to 1 when the fan has no tier yet*, so the
fan-tier bonus would be floored at 20 even with no badge row. -/
def claimPriorityScore (fanBadges : Option FanBadgeJoin)
    (subPlan : Option SubPlanJoin) : Nat :=
  let fanTierBonus :=
    (match fanBadges with
     | some fb => jsOrNat fb.priority_multiplier 1
     | none => 1) * 20
  let premiumBonus :=
    match subPlan with
    | some sp => jsOrNat sp.priority_boost 0
    | none => 0
  10 + fanTierBonus + premiumBonus

/-- Amended-claim score: the fan-tier bonus is 0 when the commenter has no
fan-badge row at all; the multiplier default of 1 only applies when a badge
row exists but its `priority_multiplier` is null (or 0, JS falsiness). -/
def amendedPriorityScore (fanBadges : Option FanBadgeJoin)
    (subPlan : Option SubPlanJoin) : Nat :=
  let fanTierBonus :=
    match fanBadges with
    | some fb => (jsOrNat fb.priority_multiplier 1) * 20
    | none => 0
  let premiumBonus :=
    match subPlan with
    | some sp => jsOrNat sp.priority_boost 0
    | none => 0
  10 + fanTierBonus + premiumBonus

/-- C2 counterexample: for a commenter with no fan-badge row and no active
subscription, the claim's formula (bonus floor 20) predicts a final score
of 30, but the code computes a fan-tier bonus of 0 and a final score of
10 — the `if (fanStatus?.fan_badges)` guard means an untiered fan gets no
bonus at all. -/
theorem priorityScore_no_tier_counterexample :
    claimPriorityScore none none = 30
    ∧ (calculatePriorityScore none none).fan_tier_bonus = 0
    ∧ (calculatePriorityScore none none).final_score = 10 := by
  decide

/-- C2 amended: the comment priority score computed at creation time is
10 (base) + fanTierBonus + premiumBonus, where fanTierBonus is
(multiplier, defaulting to 1 when the badge row's multiplier is null or
zero) * 20 when the fan has a badge row for this owner and 0 when the fan
has no badge row, and premiumBonus is the active plan's priority boost
(0 with no active subscription or a null boost). -/
theorem calculatePriorityScore_amended (fanBadges : Option FanBadgeJoin)
    (subPlan : Option SubPlanJoin) :
    (calculatePriorityScore fanBadges subPlan).final_score
      = amendedPriorityScore fanBadges subPlan
    ∧ (calculatePriorityScore fanBadges subPlan).final_score
      = (calculatePriorityScore fanBadges subPlan).base_score
        + (calculatePriorityScore fanBadges subPlan).fan_tier_bonus
        + (calculatePriorityScore fanBadges subPlan).premium_bonus := by
  cases fanBadges <;> cases subPlan <;>
    exact ⟨rfl, rfl⟩

/-! ## Fan tier state machine — routes/fans.js

`POST /:fanId/interaction` (1) inserts a `fan_interactions` row, (2) upserts
the `user_fan_status` row, incrementing `total_interactions` by 1 and
`comment_count`/`reaction_count` by 1 when the type matches, and (3) sets
`current_badge_id` to the badge with the greatest `min_interactions` that is
≤ the (just-updated) `total_interactions`.  The `fan_badges` reference table
is an explicit input; the stored badge id is modelled as the badge row it
references. -/

/-- A row of the `fan_badges` reference table. -/
structure FanBadge where
  id : Nat
  min_interactions : Nat
deriving DecidableEq, Repr

/-- One step of scanning for the badge with the greatest
`min_interactions` (`ORDER BY min_interactions DESC LIMIT 1`). -/
def pickStep (acc : Option FanBadge) (b : FanBadge) : Option FanBadge :=
  match acc with
  | none => some b
  | some a => if a.min_interactions < b.min_interactions then some b else some a

/-- The badge with the greatest `min_interactions` in a list (none when the
list is empty). -/
def pickHighest (l : List FanBadge) : Option FanBadge :=
  l.foldl pickStep none

/-- The badge-recomputation subquery:
`SELECT id FROM fan_badges WHERE min_interactions <= n
 ORDER BY min_interactions DESC LIMIT 1`. -/
def selectBadge (badges : List FanBadge) (n : Nat) : Option FanBadge :=
  pickHighest (badges.filter (fun b => b.min_interactions ≤ n))

/-- A `user_fan_status` row for one (fan, owner) pair. -/
structure FanStatusRow where
  total_interactions : Nat
  comment_count : Nat
  reaction_count : Nat
  current_badge : Option FanBadge
deriving DecidableEq, Repr

/-- The `POST /:fanId/interaction` handler for one (fan, owner) pair:
upsert the counters, then recompute the badge from the updated total. -/
def logFanInteraction (badges : List FanBadge) (interaction_type : String)
    (row : Option FanStatusRow) : FanStatusRow :=
  let upserted : FanStatusRow :=
    match row with
    | none =>
      { total_interactions := 1
        comment_count := if interaction_type = "comment" then 1 else 0
        reaction_count := if interaction_type = "reaction" then 1 else 0
        current_badge := none }
    | some r =>
      { r with
        total_interactions := r.total_interactions + 1
        comment_count := r.comment_count + (if interaction_type = "comment" then 1 else 0)
        reaction_count := r.reaction_count + (if interaction_type = "reaction" then 1 else 0) }
  { upserted with current_badge := selectBadge badges upserted.total_interactions }

/-- A sequence of interaction logs for one (fan, owner) pair, starting from
no stored row. -/
def runFanLog (badges : List FanBadge) (tys : List String) : Option FanStatusRow :=
  tys.foldl (fun row ty => some (logFanInteraction badges ty row)) none

/-- Tier comparison on nullable badges: no badge is below every badge, and
badges compare by their `min_interactions` threshold. -/
def badgeLe : Option FanBadge → Option FanBadge → Prop
  | none, _ => True
  | some _, none => False
  | some a, some b => a.min_interactions ≤ b.min_interactions

/-- Folding `pickStep` from a seeded maximum yields a maximum of the seed
and the list. -/
theorem pickStep_foldl_spec (l : List FanBadge) (a : FanBadge) :
    ∃ b, l.foldl pickStep (some a) = some b
      ∧ a.min_interactions ≤ b.min_interactions
      ∧ (b = a ∨ b ∈ l)
      ∧ ∀ x ∈ l, x.min_interactions ≤ b.min_interactions := by
  induction l generalizing a with
  | nil => exact ⟨a, rfl, Nat.le_refl _, Or.inl rfl, by simp⟩
  | cons c cs ih =>
    simp only [List.foldl_cons]
    by_cases hac : a.min_interactions < c.min_interactions
    · obtain ⟨b, hb, hcb, hmem, hmax⟩ := ih c
      refine ⟨b, ?_, ?_, ?_, ?_⟩
      · simpa [pickStep, hac] using hb
      · exact Nat.le_trans (Nat.le_of_lt hac) hcb
      · rcases hmem with h | h
        · exact Or.inr (h ▸ List.mem_cons_self c cs)
        · exact Or.inr (List.mem_cons_of_mem c h)
      · intro x hx
        rcases List.mem_cons.mp hx with h | h
        · exact h ▸ hcb
        · exact hmax x h
    · obtain ⟨b, hb, hab, hmem, hmax⟩ := ih a
      refine ⟨b, ?_, hab, ?_, ?_⟩
      · simpa [pickStep, hac] using hb
      · rcases hmem with h | h
        · exact Or.inl h
        · exact Or.inr (List.mem_cons_of_mem c h)
      · intro x hx
        rcases List.mem_cons.mp hx with h | h
        · exact h ▸ Nat.le_trans (Nat.le_of_not_lt hac) hab
        · exact hmax x h

/-- `pickHighest` of a nonempty list is a member that realises the maximal
`min_interactions`. -/
theorem pickHighest_spec (l : List FanBadge) (hne : l ≠ []) :
    ∃ b, pickHighest l = some b ∧ b ∈ l
      ∧ ∀ x ∈ l, x.min_interactions ≤ b.min_interactions := by
  cases l with
  | nil => exact absurd rfl hne
  | cons c cs =>
    obtain ⟨b, hb, hcb, hmem, hmax⟩ := pickStep_foldl_spec cs c
    refine ⟨b, ?_, ?_, ?_⟩
    · simpa [pickHighest, pickStep] using hb
    · rcases hmem with h | h
      · exact h ▸ List.mem_cons_self c cs
      · exact List.mem_cons_of_mem c h
    · intro x hx
      rcases List.mem_cons.mp hx with h | h
      · exact h ▸ hcb
      · exact hmax x h

/-- What a successful badge selection means: the badge is a table row under
the threshold, and it dominates every row under the threshold. -/
theorem selectBadge_spec (badges : List FanBadge) (n : Nat) (b : FanBadge)
    (h : selectBadge badges n = some b) :
    b.min_interactions ≤ n ∧ b ∈ badges
      ∧ ∀ x ∈ badges, x.min_interactions ≤ n →
          x.min_interactions ≤ b.min_interactions := by
  by_cases hne : badges.filter (fun x => x.min_interactions ≤ n) = []
  · rw [selectBadge, hne] at h
    exact absurd h (by simp [pickHighest])
  · obtain ⟨b', hb', hmem, hmax⟩ := pickHighest_spec _ hne
    rw [selectBadge, hb'] at h
    cases h
    have hmemf := List.mem_filter.mp hmem
    refine ⟨by simpa using hmemf.2, hmemf.1, ?_⟩
    intro x hx hxn
    exact hmax x (List.mem_filter.mpr ⟨hx, by simpa using hxn⟩)

/-- Raising the interaction total can only raise (never lower) the selected
badge's threshold. -/
theorem selectBadge_mono (badges : List FanBadge) (m n : Nat) (hmn : m ≤ n)
    (a : FanBadge) (ha : selectBadge badges m = some a) :
    ∃ b, selectBadge badges n = some b
      ∧ a.min_interactions ≤ b.min_interactions := by
  obtain ⟨ham, hamem, _⟩ := selectBadge_spec badges m a ha
  have hain : a ∈ badges.filter (fun x => x.min_interactions ≤ n) :=
    List.mem_filter.mpr ⟨hamem, by simpa using Nat.le_trans ham hmn⟩
  have hne : badges.filter (fun x => x.min_interactions ≤ n) ≠ [] :=
    fun h0 => by simp [h0] at hain
  obtain ⟨b, hb, _, hmax⟩ := pickHighest_spec _ hne
  exact ⟨b, by rw [selectBadge, hb], hmax a hain⟩

/-- Every row produced by the interaction handler satisfies the tier
invariant: its stored badge is exactly the one recomputed from its total. -/
theorem logFanInteraction_inv (badges : List FanBadge) (ty : String)
    (row : Option FanStatusRow) :
    (logFanInteraction badges ty row).current_badge
      = selectBadge badges (logFanInteraction badges ty row).total_interactions := by
  cases row <;> rfl

/-- The handler bumps the stored total by exactly one. -/
theorem logFanInteraction_total (badges : List FanBadge) (ty : String)
    (r : FanStatusRow) :
    (logFanInteraction badges ty (some r)).total_interactions
      = r.total_interactions + 1 := rfl

/-- Folding the handler from any accumulator that already satisfies the
tier invariant keeps satisfying it. -/
theorem runFanLog_go_inv (badges : List FanBadge) (tys : List String) :
    ∀ (acc : Option FanStatusRow),
      (∀ s, acc = some s → s.current_badge = selectBadge badges s.total_interactions) →
      ∀ s, tys.foldl (fun row ty => some (logFanInteraction badges ty row)) acc = some s →
        s.current_badge = selectBadge badges s.total_interactions := by
  induction tys with
  | nil => intro acc hacc s hs; exact hacc s hs
  | cons ty rest ih =>
    intro acc hacc s hs
    refine ih (some (logFanInteraction badges ty acc)) ?_ s hs
    intro s' hs'
    cases hs'
    exact logFanInteraction_inv badges ty acc

/-- Rows reached by running the log from scratch satisfy the tier
invariant. -/
theorem runFanLog_inv (badges : List FanBadge) (tys : List String)
    (r : FanStatusRow) (h : runFanLog badges tys = some r) :
    r.current_badge = selectBadge badges r.total_interactions :=
  runFanLog_go_inv badges tys none (by intro s hs; cases hs) r h

/-- C1: for every badge table, every (fan, owner) interaction history and
every next interaction, the handler (i) leaves the stored badge equal to
the highest tier whose `min_interactions` threshold is ≤ the pair's
`total_interactions`, (ii) extends the run by exactly this call, and
(iii) never moves the pair to a lower tier than the one stored before the
call. -/
theorem fanTier_invariant_monotone (badges : List FanBadge) (tys : List String)
    (ty : String) :
    (logFanInteraction badges ty (runFanLog badges tys)).current_badge
      = selectBadge badges
          (logFanInteraction badges ty (runFanLog badges tys)).total_interactions
    ∧ runFanLog badges (tys ++ [ty])
      = some (logFanInteraction badges ty (runFanLog badges tys))
    ∧ ∀ r, runFanLog badges tys = some r →
        badgeLe r.current_badge
          (logFanInteraction badges ty (runFanLog badges tys)).current_badge := by
  refine ⟨logFanInteraction_inv badges ty _, ?_, ?_⟩
  · simp [runFanLog, List.foldl_append]
  · intro r hr
    rw [hr]
    have hinv := runFanLog_inv badges tys r hr
    cases hcur : r.current_badge with
    | none => exact trivial
    | some a =>
      rw [hcur] at hinv
      obtain ⟨b, hb, hab⟩ :=
        selectBadge_mono badges r.total_interactions (r.total_interactions + 1)
          (Nat.le_succ _) a hinv.symm
      have : (logFanInteraction badges ty (some r)).current_badge = some b := by
        rw [logFanInteraction_inv badges ty (some r),
          logFanInteraction_total badges ty r, hb]
      rw [this]
      exact hab

/-- Concrete instance of `fanTier_invariant_monotone`: with badges at
thresholds 0 and 2, after a comment the fan holds the threshold-0 badge,
and the next reaction (total 2) moves the stored badge up, never down. -/
theorem fanTier_invariant_monotone_witness :
    badgeLe (some ⟨1, 0⟩)
      (logFanInteraction [⟨1, 0⟩, ⟨2, 2⟩] "reaction"
        (runFanLog [⟨1, 0⟩, ⟨2, 2⟩] ["comment"])).current_badge :=
  (fanTier_invariant_monotone [⟨1, 0⟩, ⟨2, 2⟩] ["comment"] "reaction").2.2
    { total_interactions := 1
      comment_count := 1
      reaction_count := 0
      current_badge := some ⟨1, 0⟩ }
    (by decide)

/-! ## Comment listings — routes/comments.js

`GET /post/:clipId` (plain) and `GET /post/:clipId/filtered` both annotate
each comment with
`priority_score: comment.comment_priority_scores?.[0]?.final_score || 10`
and then sort descending by that score (`(a, b) => b.priority_score -
a.priority_score`; JS array sort is stable, modelled by `mergeSort`).  The
filtered route first keeps only the comments passing the chosen filter.
Reply fetching and the `recent`/`oldest` sort modes do not touch the
priority annotation and are outside the claims. -/

/-- A `comment_priority_scores` row as selected by the listing routes. -/
structure CommentPriorityRow where
  final_score : Int
deriving DecidableEq, Repr

/-- A `comments` row with the joins the listing routes read. -/
structure CommentRow where
  id : Nat
  user_id : Nat
  user_aura : Option Nat
  created_at : Int
  comment_priority_scores : List CommentPriorityRow
deriving DecidableEq, Repr

/-- A comment annotated by the plain listing route. -/
structure AnnotatedComment where
  comment : CommentRow
  priority_score : Int
deriving DecidableEq, Repr

/-- The plain route's annotation:
`comment.comment_priority_scores?.[0]?.final_score || 10`. -/
def annotatePriority (c : CommentRow) : AnnotatedComment :=
  { comment := c
    priority_score :=
      jsOrInt ((c.comment_priority_scores.head?).map CommentPriorityRow.final_score) 10 }

/-- The plain listing pipeline under `sort = priority`: annotate, then sort
descending by `priority_score`. -/
def listCommentsByPriority (cs : List CommentRow) : List AnnotatedComment :=
  (cs.map annotatePriority).mergeSort
    (fun a b => b.priority_score ≤ a.priority_score)

/-- A comment annotated by the filtered route (fan badge and premium flag
looked up per commenter). -/
structure FilteredComment where
  comment : CommentRow
  fan_badge : Option String
  is_premium : Bool
  priority_score : Int
deriving DecidableEq, Repr

/-- The filtered route's per-comment annotation; `fanBadgeOf` and
`isPremiumOf` model the per-commenter `user_fan_status`/`subscriptions`
reads. -/
def annotateFilteredComment (fanBadgeOf : Nat → Option String)
    (isPremiumOf : Nat → Bool) (c : CommentRow) : FilteredComment :=
  { comment := c
    fan_badge := fanBadgeOf c.user_id
    is_premium := isPremiumOf c.user_id
    priority_score :=
      jsOrInt ((c.comment_priority_scores.head?).map CommentPriorityRow.final_score) 10 }

/-- The filtered route's filter switch. -/
def filterComments (filter : String) (cs : List FilteredComment) :
    List FilteredComment :=
  if filter = "die_hard" then
    cs.filter (fun c => c.fan_badge = some "Die-Hard Fan")
  else if filter = "superfan" then
    cs.filter (fun c =>
      c.fan_badge = some "Die-Hard Fan" ∨ c.fan_badge = some "Super Fan")
  else if filter = "premium" then
    cs.filter (fun c => c.is_premium)
  else if filter = "high_aura" then
    cs.filter (fun c => 800 ≤ c.comment.user_aura.getD 0)
  else cs

/-- The filtered listing pipeline: annotate, filter, sort descending by
`priority_score`. -/
def listFilteredComments (fanBadgeOf : Nat → Option String)
    (isPremiumOf : Nat → Bool) (filter : String) (cs : List CommentRow) :
    List FilteredComment :=
  (filterComments filter
      (cs.map (annotateFilteredComment fanBadgeOf isPremiumOf))).mergeSort
    (fun a b => b.priority_score ≤ a.priority_score)

/-- Stable sorting by a descending integer key really sorts: consecutive
elements of the result are in weakly decreasing key order. -/
theorem mergeSort_pairwise_desc {α : Type} (key : α → Int) (l : List α) :
    List.Pairwise (fun a b => key b ≤ key a)
      (l.mergeSort (fun a b => key b ≤ key a)) := by
  have htrans : ∀ a b c : α,
      (fun a b : α => decide (key b ≤ key a)) a b = true →
      (fun a b : α => decide (key b ≤ key a)) b c = true →
      (fun a b : α => decide (key b ≤ key a)) a c = true := by
    intro a b c hab hbc
    simp only [decide_eq_true_eq] at hab hbc ⊢
    exact le_trans hbc hab
  have htotal : ∀ a b : α,
      ((fun a b : α => decide (key b ≤ key a)) a b
        || (fun a b : α => decide (key b ≤ key a)) b a) = true := by
    intro a b
    simp only [Bool.or_eq_true, decide_eq_true_eq]
    exact le_total (key b) (key a)
  exact (List.sorted_mergeSort htrans htotal l).imp
    (fun hab => by simpa using hab)

/-- C10: in both comment listings, a comment with no persisted
priority-score record is annotated with `priority_score = 10` (the base
score), and the produced lists are permutations of the annotated inputs
ordered weakly-descending by `priority_score` — so such a comment is
sorted under the value 10. -/
theorem comments_default_priority (cs : List CommentRow) (c : CommentRow)
    (h : c.comment_priority_scores = []) :
    (annotatePriority c).priority_score = 10
    ∧ (∀ (fanBadgeOf : Nat → Option String) (isPremiumOf : Nat → Bool),
        (annotateFilteredComment fanBadgeOf isPremiumOf c).priority_score = 10)
    ∧ List.Pairwise (fun a b => b.priority_score ≤ a.priority_score)
        (listCommentsByPriority cs)
    ∧ (listCommentsByPriority cs).Perm (cs.map annotatePriority)
    ∧ (c ∈ cs → annotatePriority c ∈ listCommentsByPriority cs)
    ∧ ∀ (fanBadgeOf : Nat → Option String) (isPremiumOf : Nat → Bool)
        (filter : String),
        List.Pairwise (fun a b => b.priority_score ≤ a.priority_score)
          (listFilteredComments fanBadgeOf isPremiumOf filter cs) := by
  refine ⟨?_, ?_, ?_, ?_, ?_, ?_⟩
  · simp [annotatePriority, h, jsOrInt]
  · intro fanBadgeOf isPremiumOf
    simp [annotateFilteredComment, h, jsOrInt]
  · exact mergeSort_pairwise_desc AnnotatedComment.priority_score
      (cs.map annotatePriority)
  · exact List.mergeSort_perm _ _
  · intro hc
    exact (List.mergeSort_perm _ _).mem_iff.mpr (List.mem_map_of_mem _ hc)
  · intro fanBadgeOf isPremiumOf filter
    exact mergeSort_pairwise_desc FilteredComment.priority_score _

/-- Concrete instance of `comments_default_priority`: a comment with no
`comment_priority_scores` rows is listed with priority 10. -/
theorem comments_default_priority_witness :
    (annotatePriority
      { id := 1, user_id := 1, user_aura := none, created_at := 0
        comment_priority_scores := [] }).priority_score = 10 :=
  (comments_default_priority
    [{ id := 1, user_id := 1, user_aura := none, created_at := 0
       comment_priority_scores := [] }]
    { id := 1, user_id := 1, user_aura := none, created_at := 0
      comment_priority_scores := [] }
    rfl).1
